import Mathlib

/-!
Shallow embedding of `cyber.py`: a linear network-hardening pipeline that
fetches a device's running configuration over SSH, compares it against a
hardening-guidelines file, and configures syslog on the device.

External I/O (SSH connect / exec / shell send / recv / close, file reads,
`print`, `time.sleep`) is modelled by an explicit trace of `Event`s, and
the points where the Python code can raise are modelled by "oracle"
records saying which primitive raises and with what message.  Each
top-level Python function becomes a Lean function from its arguments and
its oracle to its return value (an `Option`, mirroring `return None` on
error) together with the list of events it performs, in program order.
-/

namespace Cyber

/-- One observable effect of the program: an established SSH connection,
a remote command execution, a channel close, shell interactions, a sleep,
or a line printed to standard output. -/
inductive Event where
  | connected (ip username password : String)
  | execCommand (cmd : String)
  | sshClosed
  | shellInvoked
  | shellSent (text : String)
  | slept (seconds : Nat)
  | shellRecvd (maxBytes : Nat)
  | printed (msg : String)
deriving DecidableEq, Repr

/-- The newline character, used by `splitlines`. -/
def nlChar : Char := Char.ofNat 10

/-- The single-quote character, used in the loader's error message. -/
def squote : String := (Char.ofNat 39).toString

/-- Helper for `splitlines`: walk the characters, cutting at newlines;
a trailing newline does not produce a trailing empty line. -/
def splitlinesAux (cs : List Char) (cur : List Char) : List String :=
  match cs with
  | [] => [String.mk cur.reverse]
  | c :: rest =>
    if c = nlChar then
      String.mk cur.reverse ::
        (match rest with
         | [] => []
         | _ :: _ => splitlinesAux rest [])
    else splitlinesAux rest (c :: cur)

/-- Python's `str.splitlines` restricted to newline separators: the empty
string yields `[]`, and a trailing newline yields no trailing empty line. -/
def splitlines (s : String) : List String :=
  match s.data with
  | [] => []
  | c :: rest => splitlinesAux (c :: rest) []

/-- Oracle for `get_running_config`: whether `ssh.connect` raises, whether
`exec_command`/`read` raises, and the decoded stdout text on success. -/
structure FetchOracle where
  connectErr : Option String
  execErr : Option String
  raw : String
deriving DecidableEq, Repr

/-- `get_running_config(ip, username, password)`: connect over SSH, run
`show running-config`, split stdout into lines, close, and return the
lines; on any exception print an error and return `None`.  Returns the
Python return value together with the event trace. -/
def get_running_config (ip username password : String) (o : FetchOracle) :
    Option (List String) × List Event :=
  match o.connectErr with
  | some e =>
      (none, [Event.printed ("Error retrieving config: " ++ e)])
  | none =>
    match o.execErr with
    | some e =>
        (none, [Event.connected ip username password,
                Event.printed ("Error retrieving config: " ++ e)])
    | none =>
        (some (splitlines o.raw),
         [Event.connected ip username password,
          Event.execCommand "show running-config",
          Event.sshClosed])

/-- Oracle for `load_hardening_guidelines`: whether `open`/`read` raises,
and the file's contents on success. -/
structure LoadOracle where
  readErr : Option String
  raw : String
deriving DecidableEq, Repr

/-- The loader's error message, `f"Error reading file '{file_path}': {e}"`. -/
def readErrMsg (file_path e : String) : String :=
  "Error reading file " ++ squote ++ file_path ++ squote ++ ": " ++ e

/-- `load_hardening_guidelines(file_path)`: read the file and split it
into lines; on any exception print an error and return `None`. -/
def load_hardening_guidelines (file_path : String) (o : LoadOracle) :
    Option (List String) × List Event :=
  match o.readErr with
  | some e => (none, [Event.printed (readErrMsg file_path e)])
  | none => (some (splitlines o.raw), [])

/-- The list comprehension in `check_compliance`:
`[g for g in guidelines if g not in running_config]`. -/
def non_compliant (running_config guidelines : List String) : List String :=
  guidelines.filter (fun g => !running_config.contains g)

/-- `check_compliance(running_config, guidelines)`: compute the
non-compliant guideline lines and print either the report or the
compliance confirmation.  Returns the printed events. -/
def check_compliance (running_config guidelines : List String) : List Event :=
  let nc := non_compliant running_config guidelines
  if nc.isEmpty then
    [Event.printed "Configuration is compliant with hardening guidelines."]
  else
    [Event.printed "Non-compliant configurations found:",
     Event.printed (String.intercalate "\n" (nc.map (fun item => "- " ++ item)))]

/-- The local variables of `check_compliance`, for the frame property:
its two parameters and the one local the body assigns. -/
structure CheckLocals where
  running_config : List String
  guidelines : List String
  non_compliant : List String
deriving DecidableEq, Repr

/-- Statement-by-statement translation of the body of `check_compliance`
over its local-variable frame: the only assignment binds `non_compliant`;
neither input list is written.  Returns the updated frame and the output. -/
def check_compliance_body (s : CheckLocals) : CheckLocals × List Event :=
  let s1 : CheckLocals :=
    ⟨s.running_config, s.guidelines,
     s.guidelines.filter (fun g => !s.running_config.contains g)⟩
  (s1,
   if s1.non_compliant.isEmpty then
     [Event.printed "Configuration is compliant with hardening guidelines."]
   else
     [Event.printed "Non-compliant configurations found:",
      Event.printed (String.intercalate "\n"
        (s1.non_compliant.map (fun item => "- " ++ item)))])

/-- The fixed five-command sequence of `configure_syslog`. -/
def syslogCommands (syslog_server_ip : String) : List String :=
  ["configure terminal",
   "logging host " ++ syslog_server_ip,
   "logging trap informational",
   "end",
   "write memory"]

/-- Oracle for `configure_syslog`: whether `connect`, `invoke_shell`,
the `send` of command `i`, or `recv` raises. -/
structure SyslogOracle where
  connectErr : Option String
  shellErr : Option String
  sendErr : Option (Fin 5 × String)
  recvErr : Option String
deriving DecidableEq, Repr

/-- The shell events of the send loop: each command is sent with a
trailing newline and followed by a one-second sleep. -/
def sendEvents (cmds : List String) : List Event :=
  cmds.foldr (fun c acc => Event.shellSent (c ++ "\n") :: Event.slept 1 :: acc) []

/-- `configure_syslog(ip, username, password, syslog_server_ip)`: connect,
open an interactive shell, send the five syslog commands pacing each with
`time.sleep(1)`, drain up to 1000 bytes with `recv`, print success, and
close; on any exception print an error (the channel is not closed on the
exception path).  Returns the event trace. -/
def configure_syslog (ip username password syslog_server_ip : String)
    (o : SyslogOracle) : List Event :=
  let commands := syslogCommands syslog_server_ip
  match o.connectErr with
  | some e => [Event.printed ("Error configuring syslog: " ++ e)]
  | none =>
  match o.shellErr with
  | some e =>
      [Event.connected ip username password,
       Event.printed ("Error configuring syslog: " ++ e)]
  | none =>
  match o.sendErr with
  | some ie =>
      Event.connected ip username password :: Event.shellInvoked ::
        (sendEvents (commands.take ie.fst.val) ++
          [Event.printed ("Error configuring syslog: " ++ ie.snd)])
  | none =>
  match o.recvErr with
  | some e =>
      Event.connected ip username password :: Event.shellInvoked ::
        (sendEvents commands ++
          [Event.printed ("Error configuring syslog: " ++ e)])
  | none =>
      Event.connected ip username password :: Event.shellInvoked ::
        (sendEvents commands ++
          [Event.shellRecvd 1000,
           Event.printed ("Syslog server " ++ syslog_server_ip ++
             " configured successfully."),
           Event.sshClosed])

/-- Python truthiness of an optional list: `None` and `[]` are falsy. -/
def pyTruthy : Option (List String) → Bool
  | none => false
  | some l => !l.isEmpty

/-- `main`'s constant: the device IP address. -/
def deviceIp : String := "192.168.56.101"

/-- `main`'s constant: the SSH username. -/
def deviceUsername : String := "cisco"

/-- `main`'s constant: the SSH password. -/
def devicePassword : String := "cisco123!"

/-- `main`'s constant: the hardening-guidelines file path. -/
def guidelinesPath : String := "cisco_hardening_guidelines.txt"

/-- `main`'s constant: the syslog server IP address. -/
def syslogServerIp : String := "192.168.1.100"

/-- Oracle for a whole run of `main`: one oracle per effectful step. -/
structure MainOracle where
  fetch : FetchOracle
  load : LoadOracle
  syslog : SyslogOracle
deriving DecidableEq, Repr

/-- `main()`: fetch the running configuration, load the guidelines, run
the compliance check only when `running_config and guidelines` is truthy,
then always configure syslog.  Returns the full event trace. -/
def main_run (o : MainOracle) : List Event :=
  let fetched := get_running_config deviceIp deviceUsername devicePassword o.fetch
  let loaded := load_hardening_guidelines guidelinesPath o.load
  let running_config := fetched.fst
  let guidelines := loaded.fst
  let checkEvents :=
    if pyTruthy running_config && pyTruthy guidelines then
      Event.printed "\nChecking compliance with hardening guidelines..." ::
        check_compliance (running_config.getD []) (guidelines.getD [])
    else []
  fetched.snd ++ loaded.snd ++ checkEvents ++
    (Event.printed "\nConfiguring syslog on the device..." ::
      configure_syslog deviceIp deviceUsername devicePassword syslogServerIp o.syslog)

/-!  Theorems about the embedded program. -/

/-- Helper: per-line count characterization of `non_compliant`: lines of
the guidelines that appear in the configuration are dropped entirely,
all other guideline lines keep their multiplicity. -/
theorem count_non_compliant (C P : List String) (g : String) :
    List.count g (non_compliant C P) =
      if g ∈ C then 0 else List.count g P := by
  simp only [non_compliant, List.count_eq_countP, List.countP_filter]
  by_cases hgC : g ∈ C
  · rw [if_pos hgC]
    simp only [List.countP_eq_zero]
    intro a ha
    simp only [Bool.and_eq_true, beq_iff_eq, not_and]
    rintro rfl
    simp [hgC]
  · rw [if_neg hgC]
    apply List.countP_congr
    intro x hx
    simp only [Bool.and_eq_true, beq_iff_eq, and_iff_left_iff_imp]
    rintro rfl
    simp [hgC]

/-- Claim C1: `check_compliance` computes as its non-compliant set exactly
the lines of the guidelines with no exact-string match anywhere in the
running configuration, preserving the guidelines' original order: the
result is an order-preserving sublist of the guidelines, its members are
exactly the guideline lines absent from the configuration, and each such
line keeps its multiplicity while matched lines are dropped entirely. -/
theorem check_compliance_exact (C P : List String) :
    List.Sublist (non_compliant C P) P ∧
    (∀ g, g ∈ non_compliant C P ↔ g ∈ P ∧ g ∉ C) ∧
    (∀ g, List.count g (non_compliant C P) =
      if g ∈ C then 0 else List.count g P) := by
  refine ⟨List.filter_sublist P, ?_, fun g => count_non_compliant C P g⟩
  intro g
  simp [non_compliant, List.mem_filter]

/-- Claim C7: if every guideline line appears verbatim in the
configuration then `check_compliance` reports full compliance (the
non-compliant set is empty); and the result depends on the configuration
only through membership, hence is unchanged by reordering or duplicating
configuration lines. -/
theorem compliant_when_all_present (C P : List String) :
    ((∀ g, g ∈ P → g ∈ C) → non_compliant C P = []) ∧
    (∀ C2, (∀ g, g ∈ C ↔ g ∈ C2) →
      non_compliant C P = non_compliant C2 P) := by
  constructor
  · intro h
    simp only [non_compliant, List.filter_eq_nil_iff]
    intro g hg
    simp [h g hg]
  · intro C2 h
    simp only [non_compliant]
    apply List.filter_congr
    intro g _
    simp [h g]

/-- Claim C7, witnessed: a configuration that contains every guideline
line, in scrambled order and with a duplicate, is reported compliant, and
swapping the configuration for a reordered duplicate-laden one with the
same members leaves the result unchanged. -/
theorem compliant_when_all_present_witness :
    non_compliant ["b", "a", "a"] ["a", "b"] = [] ∧
    non_compliant ["a", "b"] ["a", "c"] =
      non_compliant ["b", "a", "a"] ["a", "c"] :=
  ⟨(compliant_when_all_present ["b", "a", "a"] ["a", "b"]).1 (by decide),
   (compliant_when_all_present ["a", "b"] ["a", "c"]).2 ["b", "a", "a"]
     (fun g => by simp; tauto)⟩

/-- Claim C8: `check_compliance` is deterministic and idempotent: it is a
pure function of its two inputs (the source reads only its parameters and
touches no global state), so two evaluations on the same configuration
and guidelines produce the same non-compliant list and the same report;
moreover filtering an already-filtered guideline list is a no-op. -/
theorem check_compliance_deterministic (C P : List String) :
    non_compliant C P = non_compliant C P ∧
    check_compliance C P = check_compliance C P ∧
    non_compliant C (non_compliant C P) = non_compliant C P := by
  refine ⟨rfl, rfl, ?_⟩
  simp only [non_compliant, List.filter_filter]
  apply List.filter_congr
  intro g _
  simp

/-- Claim C9: `check_compliance` never mutates its inputs: in the
statement-level translation of its body over its local-variable frame,
the only assignment binds the local `non_compliant`; the
`running_config` and `guidelines` lists are unchanged after the call. -/
theorem check_compliance_no_mutation (s : CheckLocals) :
    (check_compliance_body s).fst.running_config = s.running_config ∧
    (check_compliance_body s).fst.guidelines = s.guidelines :=
  ⟨rfl, rfl⟩

/-- A run of `get_running_config` in which the SSH connection succeeds
but the remote command execution raises. -/
def execFailOracle : FetchOracle := ⟨none, some "exec failed", ""⟩

/-- Claim C2, refuted: when `ssh.connect` succeeds but the command
execution raises, `get_running_config` takes the `except` path, which
prints and returns `None` without ever calling `ssh.close()`: the
connection was established but no close event occurs in the trace. -/
theorem get_running_config_close_cex :
    Event.connected deviceIp deviceUsername devicePassword ∈
      (get_running_config deviceIp deviceUsername devicePassword
        execFailOracle).snd ∧
    Event.sshClosed ∉
      (get_running_config deviceIp deviceUsername devicePassword
        execFailOracle).snd ∧
    (get_running_config deviceIp deviceUsername devicePassword
      execFailOracle).fst = none := by
  decide

/-- Claim C2, amended: `get_running_config` closes the SSH channel on the
successful exit path only; on any exit through the exception handler,
including the path where the connection was already established, the
channel is left unclosed. -/
theorem get_running_config_close_iff (ip username password : String)
    (o : FetchOracle) :
    Event.sshClosed ∈ (get_running_config ip username password o).snd ↔
      o.connectErr = none ∧ o.execErr = none := by
  unfold get_running_config
  cases h1 : o.connectErr <;> cases h2 : o.execErr <;> simp

/-- A run of `configure_syslog` in which every SSH primitive succeeds. -/
def syslogOkOracle : SyslogOracle := ⟨none, none, none, none⟩

/-- Claim C6: on a successful run, `configure_syslog` transmits exactly
the five commands `configure terminal`, `logging host <ip>`,
`logging trap informational`, `end`, `write memory`, in that order, each
followed by a one-second sleep; after the sequence it drains at most 1000
response bytes and then closes the SSH session. -/
theorem configure_syslog_success_trace
    (ip username password syslog_server_ip : String) :
    configure_syslog ip username password syslog_server_ip syslogOkOracle =
      [Event.connected ip username password,
       Event.shellInvoked,
       Event.shellSent ("configure terminal" ++ "\n"), Event.slept 1,
       Event.shellSent ("logging host " ++ syslog_server_ip ++ "\n"),
       Event.slept 1,
       Event.shellSent ("logging trap informational" ++ "\n"), Event.slept 1,
       Event.shellSent ("end" ++ "\n"), Event.slept 1,
       Event.shellSent ("write memory" ++ "\n"), Event.slept 1,
       Event.shellRecvd 1000,
       Event.printed ("Syslog server " ++ syslog_server_ip ++
         " configured successfully."),
       Event.sshClosed] := rfl

/-- Claim C4: every error raised inside `get_running_config`,
`load_hardening_guidelines`, or `configure_syslog` is caught at that
operation's boundary, printed as a message, and converted into an absent
result: for every failure point of every operation, the operation still
returns normally (`None` where it has a return value) with the error
message printed in its trace, so no error propagates out. -/
theorem errors_caught_at_boundary (ip username password path sip : String)
    (fo : FetchOracle) (lo : LoadOracle) (so : SyslogOracle) :
    (∀ e, fo.connectErr = some e →
      (get_running_config ip username password fo).fst = none ∧
      Event.printed ("Error retrieving config: " ++ e) ∈
        (get_running_config ip username password fo).snd) ∧
    (∀ e, fo.connectErr = none → fo.execErr = some e →
      (get_running_config ip username password fo).fst = none ∧
      Event.printed ("Error retrieving config: " ++ e) ∈
        (get_running_config ip username password fo).snd) ∧
    (∀ e, lo.readErr = some e →
      (load_hardening_guidelines path lo).fst = none ∧
      Event.printed (readErrMsg path e) ∈
        (load_hardening_guidelines path lo).snd) ∧
    (∀ e, so.connectErr = some e →
      Event.printed ("Error configuring syslog: " ++ e) ∈
        configure_syslog ip username password sip so) ∧
    (∀ e, so.connectErr = none → so.shellErr = some e →
      Event.printed ("Error configuring syslog: " ++ e) ∈
        configure_syslog ip username password sip so) ∧
    (∀ i e, so.connectErr = none → so.shellErr = none →
      so.sendErr = some (i, e) →
      Event.printed ("Error configuring syslog: " ++ e) ∈
        configure_syslog ip username password sip so) ∧
    (∀ e, so.connectErr = none → so.shellErr = none → so.sendErr = none →
      so.recvErr = some e →
      Event.printed ("Error configuring syslog: " ++ e) ∈
        configure_syslog ip username password sip so) := by
  refine ⟨?_, ?_, ?_, ?_, ?_, ?_, ?_⟩
  · intro e h
    simp [get_running_config, h]
  · intro e h1 h2
    simp [get_running_config, h1, h2]
  · intro e h
    simp [load_hardening_guidelines, h]
  · intro e h
    simp [configure_syslog, h]
  · intro e h1 h2
    simp [configure_syslog, h1, h2]
  · intro i e h1 h2 h3
    simp [configure_syslog, h1, h2, h3]
  · intro e h1 h2 h3 h4
    simp [configure_syslog, h1, h2, h3, h4]

/-- Claim C4, witnessed: one concrete run per failure point — fetch
connect failure, fetch exec failure, guideline read failure, and syslog
connect / shell / send / recv failures — each returning normally with the
error printed. -/
theorem errors_caught_at_boundary_witness :
    ((get_running_config deviceIp deviceUsername devicePassword
        ⟨some "network unreachable", none, ""⟩).fst = none ∧
      Event.printed ("Error retrieving config: " ++ "network unreachable") ∈
        (get_running_config deviceIp deviceUsername devicePassword
          ⟨some "network unreachable", none, ""⟩).snd) ∧
    ((get_running_config deviceIp deviceUsername devicePassword
        ⟨none, some "exec denied", ""⟩).fst = none ∧
      Event.printed ("Error retrieving config: " ++ "exec denied") ∈
        (get_running_config deviceIp deviceUsername devicePassword
          ⟨none, some "exec denied", ""⟩).snd) ∧
    ((load_hardening_guidelines guidelinesPath
        ⟨some "no such file", ""⟩).fst = none ∧
      Event.printed (readErrMsg guidelinesPath "no such file") ∈
        (load_hardening_guidelines guidelinesPath
          ⟨some "no such file", ""⟩).snd) ∧
    (Event.printed ("Error configuring syslog: " ++ "refused") ∈
      configure_syslog deviceIp deviceUsername devicePassword syslogServerIp
        ⟨some "refused", none, none, none⟩) ∧
    (Event.printed ("Error configuring syslog: " ++ "no shell") ∈
      configure_syslog deviceIp deviceUsername devicePassword syslogServerIp
        ⟨none, some "no shell", none, none⟩) ∧
    (Event.printed ("Error configuring syslog: " ++ "send failed") ∈
      configure_syslog deviceIp deviceUsername devicePassword syslogServerIp
        ⟨none, none, some (2, "send failed"), none⟩) ∧
    (Event.printed ("Error configuring syslog: " ++ "recv failed") ∈
      configure_syslog deviceIp deviceUsername devicePassword syslogServerIp
        ⟨none, none, none, some "recv failed"⟩) :=
  ⟨(errors_caught_at_boundary deviceIp deviceUsername devicePassword
      guidelinesPath syslogServerIp ⟨some "network unreachable", none, ""⟩
      ⟨some "no such file", ""⟩ ⟨some "refused", none, none, none⟩).1
      "network unreachable" rfl,
   (errors_caught_at_boundary deviceIp deviceUsername devicePassword
      guidelinesPath syslogServerIp ⟨none, some "exec denied", ""⟩
      ⟨some "no such file", ""⟩ ⟨some "refused", none, none, none⟩).2.1
      "exec denied" rfl rfl,
   (errors_caught_at_boundary deviceIp deviceUsername devicePassword
      guidelinesPath syslogServerIp ⟨none, some "exec denied", ""⟩
      ⟨some "no such file", ""⟩ ⟨some "refused", none, none, none⟩).2.2.1
      "no such file" rfl,
   (errors_caught_at_boundary deviceIp deviceUsername devicePassword
      guidelinesPath syslogServerIp ⟨none, some "exec denied", ""⟩
      ⟨some "no such file", ""⟩ ⟨some "refused", none, none, none⟩).2.2.2.1
      "refused" rfl,
   (errors_caught_at_boundary deviceIp deviceUsername devicePassword
      guidelinesPath syslogServerIp ⟨none, some "exec denied", ""⟩
      ⟨some "no such file", ""⟩ ⟨none, some "no shell", none, none⟩).2.2.2.2.1
      "no shell" rfl rfl,
   (errors_caught_at_boundary deviceIp deviceUsername devicePassword
      guidelinesPath syslogServerIp ⟨none, some "exec denied", ""⟩
      ⟨some "no such file", ""⟩
      ⟨none, none, some (2, "send failed"), none⟩).2.2.2.2.2.1
      2 "send failed" rfl rfl rfl,
   (errors_caught_at_boundary deviceIp deviceUsername devicePassword
      guidelinesPath syslogServerIp ⟨none, some "exec denied", ""⟩
      ⟨some "no such file", ""⟩
      ⟨none, none, none, some "recv failed"⟩).2.2.2.2.2.2
      "recv failed" rfl rfl rfl rfl⟩

/-- Claim C5: in every run of `main`, the syslog enforcer runs after the
fetch, load, and compare steps regardless of their outcome — its banner
and trace form the final segment of the run for every oracle — and when
the guideline loader fails (e.g. a non-existent path) it yields `None`,
the comparator is skipped entirely, and control proceeds directly to the
enforcer. -/
theorem enforcer_always_runs_after (o : MainOracle) :
    (∃ pre, main_run o =
      pre ++ (Event.printed "\nConfiguring syslog on the device..." ::
        configure_syslog deviceIp deviceUsername devicePassword
          syslogServerIp o.syslog)) ∧
    (∀ e, o.load.readErr = some e →
      (load_hardening_guidelines guidelinesPath o.load).fst = none ∧
      main_run o =
        (get_running_config deviceIp deviceUsername devicePassword
          o.fetch).snd ++
        ((load_hardening_guidelines guidelinesPath o.load).snd ++
          (Event.printed "\nConfiguring syslog on the device..." ::
            configure_syslog deviceIp deviceUsername devicePassword
              syslogServerIp o.syslog))) := by
  constructor
  · exact ⟨_, rfl⟩
  · intro e h
    constructor
    · simp [load_hardening_guidelines, h]
    · simp [main_run, load_hardening_guidelines, h, pyTruthy,
        List.append_assoc]

/-- The run of `main` used in end-to-end scenario 3: the guideline file
does not exist; everything else succeeds. -/
def loadFailOracle : MainOracle :=
  ⟨⟨none, none, "line A"⟩, ⟨some "No such file or directory", ""⟩,
   ⟨none, none, none, none⟩⟩

/-- Claim C5, witnessed: with a missing guidelines file the loader yields
`None` and `main`'s trace is the fetch trace, the loader's error message,
and then immediately the enforcer segment — no comparator events. -/
theorem enforcer_always_runs_after_witness :
    (load_hardening_guidelines guidelinesPath loadFailOracle.load).fst =
      none ∧
    main_run loadFailOracle =
      (get_running_config deviceIp deviceUsername devicePassword
        loadFailOracle.fetch).snd ++
      ((load_hardening_guidelines guidelinesPath loadFailOracle.load).snd ++
        (Event.printed "\nConfiguring syslog on the device..." ::
          configure_syslog deviceIp deviceUsername devicePassword
            syslogServerIp loadFailOracle.syslog)) :=
  (enforcer_always_runs_after loadFailOracle).2 "No such file or directory"
    rfl

/-- The run of `main` in end-to-end scenario 2: the device returns empty
output (so the fetched configuration is `[]`), the guideline file holds
the single line `x`, and everything succeeds. -/
def scenario2Oracle : MainOracle :=
  ⟨⟨none, none, ""⟩, ⟨none, "x"⟩, ⟨none, none, none, none⟩⟩

/-- Claim C3, refuted: with fetched configuration `[]` and guidelines
`["x"]`, `main` does not run the compliance check at all: the guard
`if running_config and guidelines` is falsy for the empty list, so
neither the check banner nor the non-compliance report appears in the
trace, contrary to the claimed report of `["x"]`. -/
theorem main_empty_config_cex :
    (get_running_config deviceIp deviceUsername devicePassword
      scenario2Oracle.fetch).fst = some [] ∧
    (load_hardening_guidelines guidelinesPath scenario2Oracle.load).fst =
      some ["x"] ∧
    Event.printed "\nChecking compliance with hardening guidelines..." ∉
      main_run scenario2Oracle ∧
    Event.printed "Non-compliant configurations found:" ∉
      main_run scenario2Oracle := by
  decide

/-- Claim C3, amended: when the fetched configuration is `[]` and the
guidelines are `["x"]`, `main` skips the compliance check (the empty list
fails the truthiness guard) and proceeds directly to syslog
configuration; `check_compliance` itself, called directly on those
inputs, would compute `["x"]` as non-compliant and report it. -/
theorem main_empty_config_amended :
    main_run scenario2Oracle =
      (get_running_config deviceIp deviceUsername devicePassword
        scenario2Oracle.fetch).snd ++
      ((load_hardening_guidelines guidelinesPath scenario2Oracle.load).snd ++
        (Event.printed "\nConfiguring syslog on the device..." ::
          configure_syslog deviceIp deviceUsername devicePassword
            syslogServerIp scenario2Oracle.syslog)) ∧
    non_compliant [] ["x"] = ["x"] ∧
    check_compliance [] ["x"] =
      [Event.printed "Non-compliant configurations found:",
       Event.printed "- x"] := by
  refine ⟨?_, ?_, ?_⟩ <;> decide

/-- Claim C10: `main`'s guard before the compliance check tests Python
truthiness, not presence: even when both the configuration and the
guidelines are present (`Some`), the check is skipped whenever either
list is empty, and control proceeds straight to syslog configuration;
only when both are present and non-empty does the check run. -/
theorem main_guard_truthiness (o : MainOracle) (c g : List String)
    (hc : (get_running_config deviceIp deviceUsername devicePassword
      o.fetch).fst = some c)
    (hg : (load_hardening_guidelines guidelinesPath o.load).fst = some g) :
    ((c = [] ∨ g = []) →
      main_run o =
        (get_running_config deviceIp deviceUsername devicePassword
          o.fetch).snd ++
        ((load_hardening_guidelines guidelinesPath o.load).snd ++
          (Event.printed "\nConfiguring syslog on the device..." ::
            configure_syslog deviceIp deviceUsername devicePassword
              syslogServerIp o.syslog))) ∧
    (c ≠ [] → g ≠ [] →
      main_run o =
        (get_running_config deviceIp deviceUsername devicePassword
          o.fetch).snd ++
        ((load_hardening_guidelines guidelinesPath o.load).snd ++
          ((Event.printed
              "\nChecking compliance with hardening guidelines..." ::
            check_compliance c g) ++
           (Event.printed "\nConfiguring syslog on the device..." ::
             configure_syslog deviceIp deviceUsername devicePassword
               syslogServerIp o.syslog)))) := by
  constructor
  · intro hcg
    rcases hcg with rfl | rfl <;>
      simp [main_run, hc, hg, pyTruthy, List.append_assoc]
  · intro hc1 hg1
    simp [main_run, hc, hg, pyTruthy, hc1, hg1, List.append_assoc]

/-- Claim C10, witnessed: in scenario 2's run the configuration is
present but empty and the guidelines are present and non-empty, and the
trace contains no compliance-check segment: fetch, load, then straight
to the enforcer. -/
theorem main_guard_truthiness_witness :
    main_run scenario2Oracle =
      (get_running_config deviceIp deviceUsername devicePassword
        scenario2Oracle.fetch).snd ++
      ((load_hardening_guidelines guidelinesPath scenario2Oracle.load).snd ++
        (Event.printed "\nConfiguring syslog on the device..." ::
          configure_syslog deviceIp deviceUsername devicePassword
            syslogServerIp scenario2Oracle.syslog)) :=
  (main_guard_truthiness scenario2Oracle [] ["x"] rfl rfl).1 (Or.inl rfl)

end Cyber
